import Mathlib

/-!
Verification of the sales-ops-dashboard pipeline (src/dashboard.py).

Shallow embedding conventions:
* A pandas DataFrame of rows becomes a Lean `List` of a structure type.
* Timestamps (`datetime`) become `ℤ` (days); `timedelta(days = k)` is `+ k`.
* A possibly-missing date cell (pandas `NaT` / Python `None`) is `Option ℤ`.
  pandas propagates `NaT` through `+ timedelta` (`Option.map`) and makes any
  comparison with `NaT` yield `False` (see `natGt`).
* Currency amounts become `ℚ`.
* `np.random.*` draws are modelled as oracle functions supplied as arguments;
  the contract of `np.random.randint(lo, hi)` (result in `[lo, hi)`) appears
  as a hypothesis where a claim depends on it.
-/

inductive LeadSource where
  | linkedIn | website | referral | coldCall
deriving DecidableEq

inductive LeadStatus where
  | new | contacted | qualified | proposalSent | negotiation | closedWon | closedLost
deriving DecidableEq

inductive ProjStatus where
  | planning | inProgress | stalled | completed
deriving DecidableEq

/-- One row of the "Sales" table: columns Lead ID, Lead Source, Status,
Deal Value ($), Salesperson, Date Created, Date Closed. -/
structure Lead where
  leadId : Nat
  leadSource : LeadSource
  status : LeadStatus
  dealValue : ℚ
  salesperson : String
  dateCreated : ℤ
  dateClosed : Option ℤ
deriving DecidableEq

/-- One row of the "Operations" table: columns Lead ID, Project Status,
Kickoff Date, Expected Completion, Actual Completion. -/
structure Project where
  leadId : Nat
  projectStatus : ProjStatus
  kickoffDate : Option ℤ
  expectedCompletion : Option ℤ
  actualCompletion : Option ℤ
deriving DecidableEq

/-- dashboard.py lines 75-79: boolean-mask row selection
`sales_data[(Salesperson.isin(selected)) & (Date Created >= start) & (Date Created <= end)]`,
guarded by `if not sales_data.empty else pd.DataFrame()` (the guard is a
no-op on the empty list). `isin` over the selected-owner list is `contains`. -/
def filtered_sales (leads : List Lead) (owners : List String) (startD endD : ℤ) : List Lead :=
  leads.filter fun l =>
    owners.contains l.salesperson && decide (startD ≤ l.dateCreated)
      && decide (l.dateCreated ≤ endD)

/-- dashboard.py line 86:
`filtered_sales[filtered_sales['Status'] == 'Closed-Won']['Deal Value ($)'].sum()
 if not filtered_sales.empty and 'Status' in filtered_sales.columns else 0`.
In the typed model the `Status` column always exists, so the guard reduces to
the emptiness test. -/
def sales_total (leads : List Lead) : ℚ :=
  if leads.isEmpty then 0
  else ((leads.filter fun l => decide (l.status = LeadStatus.closedWon)).map
    (fun l => l.dealValue)).sum

/-- dashboard.py line 87: `len(ops_data) if not ops_data.empty else 0`. -/
def ops_total (projects : List Project) : Nat :=
  if projects.isEmpty then 0 else projects.length

/-- Python 3 `round(q)` to the nearest integer, ties to even (banker's
rounding), modelled exactly over `ℚ`. -/
def pyRound (q : ℚ) : ℤ :=
  let f := ⌊q⌋
  let r := q - f
  if r < 1/2 then f
  else if 1/2 < r then f + 1
  else if Even f then f else f + 1

/-- Python `round(q, 2)`: round to 2 decimal places. -/
def round2 (q : ℚ) : ℚ := (pyRound (q * 100) : ℚ) / 100

/-- dashboard.py lines 89-90:
`round((total / goal) * 100, 2) if goal > 0 else 0`
(shared shape of `sales_progress` and `ops_progress`). -/
def goal_progress (value goal : ℚ) : ℚ :=
  if 0 < goal then round2 (value / goal * 100) else 0

/-- The pandas ordered comparison on possibly-missing dates: any comparison
involving `NaT` is `False`. -/
def natGt : Option ℤ → Option ℤ → Bool
  | some a, some b => decide (b < a)
  | _, _ => false

/-- dashboard.py line 123, the SLA Breaches metric:
`(ops_data['Actual Completion'] > ops_data['Expected Completion']).sum()`
(the surrounding column-existence guard is vacuous in the typed model). -/
def sla_breach_count (projects : List Project) : Nat :=
  (projects.filter fun p => natGt p.actualCompletion p.expectedCompletion).length

/-- dashboard.py line 122, the Completed Projects metric:
`(ops_data['Project Status'] == 'Completed').sum()`. -/
def completed_count (projects : List Project) : Nat :=
  (projects.filter fun p => decide (p.projectStatus = ProjStatus.completed)).length

/-- One uploaded Excel workbook (`pd.ExcelFile`). A sheet named "Sales" /
"Operations" is present iff the corresponding field is `some rows`
(`'Sales' in xls.sheet_names` and `xls.parse('Sales')` collapse into one
`Option`). -/
structure UploadFile where
  salesSheet : Option (List Lead)
  opsSheet : Option (List Project)
deriving DecidableEq

/-- The random draws of the synthetic branch of `load_data` (dashboard.py
lines 44-57), one oracle function per `np.random.*` call site, indexed by
row position. `closedF` covers the whole conditional expression of line 51
(`datetime.today() - timedelta(days=randint(1,30)) if rand() > 0.5 else None`),
`actualOffF` the per-row `np.random.randint(25, 40)` of line 57. -/
structure SynthOracle where
  srcF : Nat → LeadSource
  statusF : Nat → LeadStatus
  valueF : Nat → ℚ
  ownerF : Nat → String
  closedF : Nat → Option ℤ
  projStatusF : Nat → ProjStatus
  actualOffF : Nat → ℤ

/-- dashboard.py lines 44-52: the synthetic `sales` frame. Row `i`
(0-based) has `Lead ID = i + 1` (Python `range(1, 21)`) and
`Date Created = today - 60 + i` (`pd.date_range(today - 60 days, periods=20)`,
daily frequency). -/
def synthSales (o : SynthOracle) (today : ℤ) : List Lead :=
  (List.range 20).map fun i =>
    { leadId := i + 1
      leadSource := o.srcF i
      status := o.statusF i
      dealValue := o.valueF i
      salesperson := o.ownerF i
      dateCreated := today - 60 + i
      dateClosed := o.closedF i }

/-- dashboard.py lines 53-57: `ops = sales[sales['Status'] == 'Closed-Won'].copy()`
then the three date columns. `d + timedelta(days=k)` on a possibly-`NaT`
cell is `Option.map (· + k)`: pandas stores the `None` of line 51 as `NaT`
and propagates it through datetime arithmetic. -/
def synthOps (o : SynthOracle) (today : ℤ) : List Project :=
  ((synthSales o today).filter fun l => decide (l.status = LeadStatus.closedWon)).map
    fun l =>
      let kick := l.dateClosed.map (· + 3)
      { leadId := l.leadId
        projectStatus := o.projStatusF l.leadId
        kickoffDate := kick
        expectedCompletion := kick.map (· + 30)
        actualCompletion := kick.map (· + o.actualOffF l.leadId) }

/-- dashboard.py lines 29-58, `load_data()`. Branch order follows the
source: Google-Sheets placeholder first (two empty frames), then the
upload branch when the uploaded-file list is truthy (non-empty), else the
synthetic branch. The upload loop appends `xls.parse(name)` per file when
the sheet exists (`List.filterMap`), and `pd.concat(frames, ignore_index=True)
if frames else pd.DataFrame()` is the flattening (`List.flatten` of no
frames is already the empty frame). -/
def load_data (useGoogleSheets : Bool) (uploads : List UploadFile)
    (o : SynthOracle) (today : ℤ) : List Lead × List Project :=
  if useGoogleSheets then ([], [])
  else if !uploads.isEmpty then
    ((uploads.filterMap (fun f => f.salesSheet)).flatten,
     (uploads.filterMap (fun f => f.opsSheet)).flatten)
  else (synthSales o today, synthOps o today)

/-- Everything one render cycle computes from the loaded data and the
sidebar inputs (dashboard.py lines 75-90 and the Operations metrics of
lines 121-124). -/
structure DashMetrics where
  filteredSales : List Lead
  salesTotal : ℚ
  salesProgress : ℚ
  opsTotal : Nat
  opsProgress : ℚ
  activeProjects : Nat
  completedProjects : Nat
  slaBreaches : Nat
deriving DecidableEq

/-- One synchronous render pass: the filter of lines 75-79 feeds only the
sales-side aggregates; every operations metric reads `ops_data` directly. -/
def render (salesData : List Lead) (opsData : List Project)
    (owners : List String) (startD endD : ℤ) (salesGoal opsGoal : ℚ) : DashMetrics :=
  let filtered := filtered_sales salesData owners startD endD
  { filteredSales := filtered
    salesTotal := sales_total filtered
    salesProgress := goal_progress (sales_total filtered) salesGoal
    opsTotal := ops_total opsData
    opsProgress := goal_progress (ops_total opsData : ℚ) opsGoal
    activeProjects := opsData.length
    completedProjects := completed_count opsData
    slaBreaches := sla_breach_count opsData }

/-- Modelled from the spec (§4.3): a project is an SLA breach when both
completion dates are present and the actual one is strictly later. Used
to compare the code's `sla_breach_count` against the spec's wording. -/
def specIsBreach (p : Project) : Prop :=
  ∃ a e, p.actualCompletion = some a ∧ p.expectedCompletion = some e ∧ e < a

instance (p : Project) : Decidable (specIsBreach p) := by
  unfold specIsBreach
  cases p.actualCompletion <;> cases p.expectedCompletion <;>
    simp <;> infer_instance

/-- Modelled from the spec (§4.1, upload path): per file, take the "Sales"
sheet's rows (if present) into the lead collection and the "Operations"
sheet's rows (if present) into the project collection, concatenating across
files in order; a file with neither sheet contributes nothing. Used to
compare the code's `load_data` upload branch against the spec's wording. -/
def specExtract : List UploadFile → List Lead × List Project
  | [] => ([], [])
  | f :: fs =>
    let rest := specExtract fs
    (f.salesSheet.getD [] ++ rest.1, f.opsSheet.getD [] ++ rest.2)

/-- Modelled from the spec (§4.3): `round(value/goal*100, 2)` with no
guard, the aggregator contract for in-range goals. -/
def specGoalProgress (value goal : ℚ) : ℚ := round2 (value / goal * 100)

/-- An oracle standing in for one arbitrary run of the RNG, used to
instantiate universally quantified statements at a concrete input. -/
def trivOracle : SynthOracle :=
  { srcF := fun _ => LeadSource.website
    statusF := fun _ => LeadStatus.new
    valueF := fun _ => 0
    ownerF := fun _ => "Alice"
    closedF := fun _ => none
    projStatusF := fun _ => ProjStatus.planning
    actualOffF := fun _ => 30 }

/-- Variant of `trivOracle` with every status drawn as Closed-Won, so the
synthetic operations table is non-empty. -/
def wonOracle : SynthOracle :=
  { trivOracle with statusF := fun _ => LeadStatus.closedWon }

/-- A sales row reused by two uploaded files, to exercise ID collisions. -/
def dupLead : Lead :=
  { leadId := 1
    leadSource := LeadSource.website
    status := LeadStatus.new
    dealValue := 0
    salesperson := "Alice"
    dateCreated := 0
    dateClosed := none }

theorem natGt_eq_breach (p : Project) :
    natGt p.actualCompletion p.expectedCompletion = decide (specIsBreach p) := by
  rcases ha : p.actualCompletion with _ | a <;> rcases he : p.expectedCompletion with _ | e <;>
    simp [natGt, specIsBreach, ha, he]

/-- C1: the filter keeps a lead iff its owner is selected and its creation
timestamp lies in `[start, end]` with both endpoints inclusive; an empty
owner set always yields the empty result; and the output is a sublist of
the input, which the pure boolean-mask selection leaves untouched. -/
theorem filtered_sales_spec (leads : List Lead) (owners : List String) (startD endD : ℤ) :
    (∀ l : Lead, l ∈ filtered_sales leads owners startD endD ↔
      l ∈ leads ∧ l.salesperson ∈ owners ∧ startD ≤ l.dateCreated ∧ l.dateCreated ≤ endD) ∧
    filtered_sales leads [] startD endD = [] ∧
    (filtered_sales leads owners startD endD).Sublist leads := by
  refine ⟨fun l => ?_, ?_, List.filter_sublist _⟩
  · simp [filtered_sales, List.mem_filter, and_assoc]
  · simp [filtered_sales]

/-- C2: `sales_total` is the sum of deal values over exactly the
Closed-Won leads, and is 0 on the empty collection (hence also 0 when no
lead is Closed-Won, the sum then ranging over an empty selection). -/
theorem sales_total_spec (leads : List Lead) :
    sales_total leads =
      ((leads.filter fun l => decide (l.status = LeadStatus.closedWon)).map
        (fun l => l.dealValue)).sum ∧
    sales_total ([] : List Lead) = 0 ∧
    ((∀ l ∈ leads, l.status ≠ LeadStatus.closedWon) → sales_total leads = 0) := by
  have hsum : sales_total leads =
      ((leads.filter fun l => decide (l.status = LeadStatus.closedWon)).map
        (fun l => l.dealValue)).sum := by
    unfold sales_total
    split
    · simp_all [List.isEmpty_iff]
    · rfl
  refine ⟨hsum, rfl, fun hnone => ?_⟩
  rw [hsum]
  have : leads.filter (fun l => decide (l.status = LeadStatus.closedWon)) = [] := by
    rw [List.filter_eq_nil_iff]
    intro l hl
    simpa using hnone l hl
  simp [this]

/-- Concrete instance of `sales_total_spec`: a singleton collection whose
only lead is not Closed-Won totals to 0. -/
theorem sales_total_spec_witness : sales_total [dupLead] = 0 :=
  (sales_total_spec [dupLead]).2.2 (by decide)

/-- C7: filtering an already-filtered collection with the same owners and
date interval returns it unchanged. -/
theorem filtered_sales_idem (leads : List Lead) (owners : List String) (startD endD : ℤ) :
    filtered_sales (filtered_sales leads owners startD endD) owners startD endD =
      filtered_sales leads owners startD endD := by
  unfold filtered_sales
  rw [List.filter_filter]
  apply List.filter_congr
  intro l _
  rw [Bool.and_self]

/-- C3: the SLA-breach metric counts exactly the projects with both
completion dates present and actual strictly later than expected; dropping
every project that lacks either date beforehand leaves the count unchanged,
because a pandas comparison against `NaT` is `False`. -/
theorem sla_breach_count_spec (ps : List Project) :
    sla_breach_count ps = (ps.filter fun p => decide (specIsBreach p)).length ∧
    sla_breach_count ps =
      sla_breach_count (ps.filter fun p =>
        p.actualCompletion.isSome && p.expectedCompletion.isSome) := by
  constructor
  · unfold sla_breach_count
    congr 1
    apply List.filter_congr
    intro p _
    exact natGt_eq_breach p
  · unfold sla_breach_count
    rw [List.filter_filter]
    congr 1
    apply List.filter_congr
    intro p _
    rcases ha : p.actualCompletion with _ | a <;>
      rcases he : p.expectedCompletion with _ | e <;> simp [natGt, ha, he]

theorem pyRound_nonneg (q : ℚ) (hq : 0 ≤ q) : 0 ≤ pyRound q := by
  unfold pyRound
  have h0 : (0 : ℤ) ≤ ⌊q⌋ := Int.floor_nonneg.mpr hq
  dsimp only
  split
  · exact h0
  · split
    · omega
    · split <;> omega

theorem round2_nonneg (q : ℚ) (hq : 0 ≤ q) : 0 ≤ round2 q := by
  unfold round2
  have : (0 : ℤ) ≤ pyRound (q * 100) := pyRound_nonneg _ (by positivity)
  positivity

/-- C4: for `0 ≤ value` and `1 ≤ goal` (the sidebar-enforced minimum),
`goal_progress` takes its live branch and equals the spec's
`round(value/goal*100, 2)`, and that percentage is non-negative. -/
theorem goal_progress_spec (value goal : ℚ) (hv : 0 ≤ value) (hg : 1 ≤ goal) :
    goal_progress value goal = specGoalProgress value goal ∧
    0 ≤ goal_progress value goal := by
  have hpos : (0 : ℚ) < goal := lt_of_lt_of_le one_pos hg
  refine ⟨?_, ?_⟩
  · unfold goal_progress specGoalProgress
    rw [if_pos hpos]
  · unfold goal_progress
    rw [if_pos hpos]
    exact round2_nonneg _ (by positivity)

/-- Concrete instance of `goal_progress_spec`: value 150, goal 200. -/
theorem goal_progress_spec_witness :
    (0 : ℚ) ≤ 150 ∧ (1 : ℚ) ≤ 200 ∧
    (goal_progress 150 200 = specGoalProgress 150 200 ∧ 0 ≤ goal_progress 150 200) :=
  ⟨by norm_num, by norm_num, goal_progress_spec 150 200 (by norm_num) (by norm_num)⟩

/-- C5 fails on the upload path: two uploaded files whose "Sales" sheets
both carry Lead ID 1 are concatenated verbatim, so the loaded lead
collection repeats an identifier. -/
theorem load_data_dup_ids :
    ¬ (((load_data false
          [UploadFile.mk (some [dupLead]) none, UploadFile.mk (some [dupLead]) none]
          trivOracle 0).1.map (fun l => l.leadId)).Nodup) := by
  simp [load_data, dupLead]

/-- C5 amended: in the synthetic branch the lead identifiers are
`1, …, 20` and hence unique; uploaded identifiers are taken as-is. -/
theorem synth_lead_ids_nodup (o : SynthOracle) (today : ℤ) :
    ((synthSales o today).map (fun l => l.leadId)).Nodup := by
  have h : (synthSales o today).map (fun l => l.leadId) =
      (List.range 20).map (fun i => i + 1) := by
    simp [synthSales, List.map_map, Function.comp]
  rw [h]
  exact (List.nodup_range 20).map (fun a b hab => by omega)

/-- C6: every run of the synthetic branch produces exactly 20 leads, one
project per Closed-Won lead, and each project's dates satisfy
kickoff = close + 3 days, expected = kickoff + 30 days, and
actual = kickoff + a draw of `randint(25, 40)`, i.e. an offset in
`[25, 39]`; missing close dates propagate through the `Option.map`
lifting as pandas `NaT` does. -/
theorem synth_spec (o : SynthOracle) (today : ℤ)
    (hoff : ∀ i, 25 ≤ o.actualOffF i ∧ o.actualOffF i < 40) :
    (synthSales o today).length = 20 ∧
    (synthOps o today).length =
      ((synthSales o today).filter fun l =>
        decide (l.status = LeadStatus.closedWon)).length ∧
    ∀ p ∈ synthOps o today, ∃ l ∈ synthSales o today,
      l.status = LeadStatus.closedWon ∧ p.leadId = l.leadId ∧
      p.kickoffDate = l.dateClosed.map (· + 3) ∧
      p.expectedCompletion = p.kickoffDate.map (· + 30) ∧
      ∃ off, 25 ≤ off ∧ off ≤ 39 ∧ p.actualCompletion = p.kickoffDate.map (· + off) := by
  refine ⟨by simp [synthSales], by simp [synthOps], ?_⟩
  intro p hp
  rw [synthOps, List.mem_map] at hp
  obtain ⟨l, hl, rfl⟩ := hp
  rw [List.mem_filter] at hl
  obtain ⟨hmem, hwon⟩ := hl
  refine ⟨l, hmem, by simpa using hwon, rfl, rfl, rfl,
    o.actualOffF l.leadId, (hoff l.leadId).1, ?_, rfl⟩
  have := (hoff l.leadId).2
  omega

/-- Concrete instance of `synth_spec` at `trivOracle` (every actual-offset
draw equal to 30). -/
theorem synth_spec_witness : (synthSales trivOracle 0).length = 20 :=
  (synth_spec trivOracle 0 (fun i => by norm_num [trivOracle])).1

theorem specExtract_eq_flatten (us : List UploadFile) :
    specExtract us = ((us.filterMap (fun f => f.salesSheet)).flatten,
      (us.filterMap (fun f => f.opsSheet)).flatten) := by
  induction us with
  | nil => rfl
  | cons f fs ih =>
    rcases hf : f.salesSheet with _ | s <;> rcases hg : f.opsSheet with _ | t <;>
      simp [specExtract, hf, hg, ih]

/-- C8: on the upload branch, `load_data` agrees with the spec's per-file
sheet extraction (Sales rows then Operations rows, concatenated across
files in order); if no file carries a given sheet that collection is
empty; and a file with neither sheet can be dropped from the upload list
without changing the result. -/
theorem load_data_upload_spec (uploads : List UploadFile) (o : SynthOracle) (today : ℤ)
    (h : uploads ≠ []) :
    load_data false uploads o today = specExtract uploads ∧
    ((∀ f ∈ uploads, f.salesSheet = none) → (load_data false uploads o today).1 = []) ∧
    ((∀ f ∈ uploads, f.opsSheet = none) → (load_data false uploads o today).2 = []) ∧
    (∀ pre post : List UploadFile, pre ++ post ≠ [] →
      load_data false (pre ++ UploadFile.mk none none :: post) o today =
        load_data false (pre ++ post) o today) := by
  have hne : uploads.isEmpty = false := by simpa [List.isEmpty_iff] using h
  refine ⟨?_, ?_, ?_, ?_⟩
  · rw [specExtract_eq_flatten]
    simp [load_data, hne]
  · intro hall
    have hnil : uploads.filterMap (fun f => f.salesSheet) = [] := by
      rw [List.filterMap_eq_nil_iff]
      exact hall
    simp [load_data, hne, hnil]
  · intro hall
    have hnil : uploads.filterMap (fun f => f.opsSheet) = [] := by
      rw [List.filterMap_eq_nil_iff]
      exact hall
    simp [load_data, hne, hnil]
  · intro pre post hpp
    have h1 : (pre ++ UploadFile.mk none none :: post).isEmpty = false := by
      simp [List.isEmpty_iff]
    have h2 : (pre ++ post).isEmpty = false := by
      simpa [List.isEmpty_iff] using hpp
    simp [load_data, h1, h2, List.filterMap_append]

/-- Concrete instance of `load_data_upload_spec`: one uploaded workbook
with neither named sheet yields two empty collections. -/
theorem load_data_upload_spec_witness :
    load_data false [UploadFile.mk none none] trivOracle 0 =
      specExtract [UploadFile.mk none none] :=
  (load_data_upload_spec [UploadFile.mk none none] trivOracle 0 (by simp)).1

/-- C9: every metric computed from the project collection — total, goal
progress, active count, completed count, SLA breaches — is the same under
any two owner selections and date intervals: only the filtered leads and
the sales-side metrics read the filter criteria. -/
theorem ops_metrics_frame (salesData : List Lead) (opsData : List Project)
    (owners1 owners2 : List String) (s1 e1 s2 e2 : ℤ) (salesGoal opsGoal : ℚ) :
    (render salesData opsData owners1 s1 e1 salesGoal opsGoal).opsTotal =
      (render salesData opsData owners2 s2 e2 salesGoal opsGoal).opsTotal ∧
    (render salesData opsData owners1 s1 e1 salesGoal opsGoal).opsProgress =
      (render salesData opsData owners2 s2 e2 salesGoal opsGoal).opsProgress ∧
    (render salesData opsData owners1 s1 e1 salesGoal opsGoal).activeProjects =
      (render salesData opsData owners2 s2 e2 salesGoal opsGoal).activeProjects ∧
    (render salesData opsData owners1 s1 e1 salesGoal opsGoal).completedProjects =
      (render salesData opsData owners2 s2 e2 salesGoal opsGoal).completedProjects ∧
    (render salesData opsData owners1 s1 e1 salesGoal opsGoal).slaBreaches =
      (render salesData opsData owners2 s2 e2 salesGoal opsGoal).slaBreaches :=
  ⟨rfl, rfl, rfl, rfl, rfl⟩

/-- C10: when a synthetic draw makes lead `i` Closed-Won with no close
date (the two draws are independent oracle components), the derived
project has all three dates missing, is not counted by the `NaT`-safe
breach comparison, and still counts toward `ops_total` (which is the full
project-collection length). -/
theorem synth_missing_close (o : SynthOracle) (today : ℤ) (i : Nat)
    (hi : i < 20) (hs : o.statusF i = LeadStatus.closedWon) (hc : o.closedF i = none) :
    ∃ p ∈ synthOps o today,
      p.leadId = i + 1 ∧ p.kickoffDate = none ∧ p.expectedCompletion = none ∧
      p.actualCompletion = none ∧
      natGt p.actualCompletion p.expectedCompletion = false ∧
      ops_total (synthOps o today) = (synthOps o today).length := by
  have hfil : ∃ l ∈ (synthSales o today).filter
      (fun l => decide (l.status = LeadStatus.closedWon)),
      l.dateClosed = none ∧ l.leadId = i + 1 := by
    refine ⟨_, List.mem_filter.mpr
      ⟨List.mem_map.mpr ⟨i, List.mem_range.mpr hi, rfl⟩, by simp [hs]⟩, by simpa using hc, rfl⟩
  obtain ⟨l, hlf, hlc, hlid⟩ := hfil
  have hp : ∃ p ∈ synthOps o today,
      p.leadId = i + 1 ∧ p.kickoffDate = none ∧ p.expectedCompletion = none ∧
      p.actualCompletion = none := by
    refine ⟨_, List.mem_map.mpr ⟨l, hlf, rfl⟩, hlid, by simp [hlc], by simp [hlc], by simp [hlc]⟩
  obtain ⟨p, hpm, h1, h2, h3, h4⟩ := hp
  have hne : synthOps o today ≠ [] := List.ne_nil_of_mem hpm
  refine ⟨p, hpm, h1, h2, h3, h4, by rw [h3, h4]; rfl, ?_⟩
  unfold ops_total
  rw [if_neg]
  simpa [List.isEmpty_iff] using hne

/-- Concrete instance of `synth_missing_close`: with every status drawn
Closed-Won and every close date drawn missing, lead 1's project has no
dates yet still sits in the active-project count. -/
theorem synth_missing_close_witness :
    ∃ p ∈ synthOps wonOracle 0,
      p.leadId = 0 + 1 ∧ p.kickoffDate = none ∧ p.expectedCompletion = none ∧
      p.actualCompletion = none ∧
      natGt p.actualCompletion p.expectedCompletion = false ∧
      ops_total (synthOps wonOracle 0) = (synthOps wonOracle 0).length :=
  synth_missing_close wonOracle 0 0 (by norm_num) rfl rfl
